import Mathlib

/-!
# Verification of the Additive Artisan order-tracking pipeline

A shallow embedding, in Lean 4, of the order-status core of the
`additiveartisan/store_site` repository:

* `api.js` — `fetchWithTimeout` / `fetchWithRetry` (timeout + exponential
  backoff retry combinator);
* `order_tracker.js` — the status registry (`STATUS_CONFIG`,
  `DEFAULT_STATUS`, `getStatusConfig`, `getStatusSteps`, `getStatusIndex`),
  the lookup client (`fetchOrderStatus`) and the view functions
  (`displayOrderStatus`, `updateOrderDetails`, `updateTimeline`,
  `displayError`, `showLoading`);
* `main.js` — `handleOrderSearch` (form validation and orchestration);
* `utils.js` — `escapeHTML`.

The network is modelled as an oracle `transport : Nat → Outcome` giving, for
each 0-indexed attempt, what that attempt's `fetchWithTimeout` call does:
resolve with a `Response`, abort on the 10 s timer (which `fetchWithTimeout`
converts into the error "Request timeout - please try again"), or reject with
some other transport error.  Runs record the requests issued and the backoff
waits (in milliseconds) so that attempt counts and delays can be stated.
-/

namespace StoreSite

/-- The `order` object of a successful envelope.  Optional fields model JSON
properties that may be absent (`none`) — JS string truthiness is applied
wherever the source tests them. -/
structure Order where
  orderId : String
  status : String
  product : Option String
  trackingNumber : Option String
  createdDate : Option String
  updatedDate : Option String
  deriving Repr, DecidableEq

/-- The JSON envelope `{success, order?, error?}` returned by the lookup
endpoint (spec §6). -/
structure Envelope where
  success : Bool
  error : Option String
  order : Option Order
  deriving Repr, DecidableEq

/-- A `fetch` `Response` as consumed by `api.js` / `order_tracker.js`:
`ok` (2xx), `status`, `statusText`, and the result of `response.json()` —
`body = none` models a body that fails to parse as JSON, in which case the
engine-supplied parse-error message `jsonErrorMsg` is thrown. -/
structure Response where
  ok : Bool
  status : Nat
  statusText : String
  body : Option Envelope
  jsonErrorMsg : String
  deriving Repr, DecidableEq

/-- What one attempt's `fetchWithTimeout(url, 10000)` call does:
`resolved r` — the promise resolves with response `r` (of any HTTP status);
`timeout` — the abort timer fires (an `AbortError`, which `fetchWithTimeout`
rethrows as `Error("Request timeout - please try again")`);
`netError msg` — `fetch` rejects with some other error carrying `msg`. -/
inductive Outcome where
  | resolved (r : Response)
  | timeout
  | netError (msg : String)
  deriving Repr, DecidableEq

/-- The error a `fetchWithRetry` run can reject with:
`timeoutErr` — `fetchWithTimeout`'s `Error("Request timeout - please try
again")`; `httpErr s t` — the `Error("HTTP s: t")` thrown on a final non-ok
response; `transportErr m` — the underlying fetch error rethrown. -/
inductive FetchError where
  | timeoutErr
  | httpErr (status : Nat) (statusText : String)
  | transportErr (msg : String)
  deriving Repr, DecidableEq

/-- The `.message` of the thrown JS `Error`, as `handleOrderSearch` /
`displayError` see it. -/
def FetchError.message : FetchError → String
  | .timeoutErr => "Request timeout - please try again"
  | .httpErr status statusText => "HTTP " ++ toString status ++ ": " ++ statusText
  | .transportErr msg => msg

/-- One HTTP request issued by the fetcher: `fetchWithTimeout(url, 10000)`. -/
structure Request where
  url : String
  timeoutMs : Nat
  deriving Repr, DecidableEq

/-- How a `fetchWithRetry` promise settles: resolve with a response, reject
with an error, or (when the `for` loop body never runs, e.g. `maxRetries = 0`)
resolve with `undefined`. -/
inductive RunResult where
  | resolvedWith (r : Response)
  | rejectedWith (e : FetchError)
  | undefinedResult
  deriving Repr, DecidableEq

/-- Observable trace of one `fetchWithRetry` run: the requests issued (one per
loop iteration, in order), the backoff waits actually awaited (milliseconds,
in order), and how the promise settled. -/
structure RunTrace where
  requests : List Request
  waits : List Nat
  result : RunResult
  deriving Repr, DecidableEq

/-- Does this attempt outcome count as a failed attempt for the retry loop
(timeout, transport error, or a response that is not ok)? -/
def attemptFails : Outcome → Bool
  | .resolved r => !r.ok
  | .timeout => true
  | .netError _ => true

/-- The error `fetchWithRetry` rejects with when its *last* attempt has this
outcome (meaningful when `attemptFails` holds). -/
def failureOf : Outcome → FetchError
  | .resolved r => .httpErr r.status r.statusText
  | .timeout => .timeoutErr
  | .netError msg => .transportErr msg

/-- Loop body of `fetchWithRetry` (api.js).  `remaining` is the number of
iterations the `for (let i = 0; i < maxRetries; i++)` loop still has to run
(i.e. `maxRetries - i`), so the source's last-iteration test
`i === maxRetries - 1` is exactly `remaining = 1`; `i` is the source's loop
counter, used for the backoff amount `Math.pow(2, i) * 1000`.

Each iteration issues `fetchWithTimeout(url, 10000)`.  If the response is ok
it is returned at once.  Otherwise — non-ok response, timeout, or transport
error — the last iteration throws (`HTTP status: statusText` for a non-ok
response, the caught error otherwise) and a non-last iteration awaits
`2^i * 1000` ms and continues. -/
def fetchWithRetryAux (url : String) (transport : Nat → Outcome) :
    (remaining i : Nat) → RunTrace
  | 0, _ => ⟨[], [], .undefinedResult⟩
  | r + 1, i =>
    let req : Request := ⟨url, 10000⟩
    let o := transport i
    -- Failure path of iteration `i`: on the last iteration throw the error
    -- this outcome produces (`failureOf o`: the `HTTP status: statusText`
    -- error for a non-ok response, the caught error otherwise); on a non-last
    -- iteration await `Math.pow(2, i) * 1000` ms and continue the loop.
    let onFail : RunTrace :=
      if r = 0 then ⟨[req], [], .rejectedWith (failureOf o)⟩
      else
        let t := fetchWithRetryAux url transport r (i + 1)
        ⟨req :: t.requests, 2 ^ i * 1000 :: t.waits, t.result⟩
    match o with
    | .resolved resp =>
      if resp.ok then ⟨[req], [], .resolvedWith resp⟩
      else onFail
    | .timeout => onFail
    | .netError _ => onFail

/-- `fetchWithRetry(url, options = {}, maxRetries = 3)` from api.js, run
against the transport oracle.  `options` is accepted (any type `α`) exactly as
the source accepts it; the loop body only ever calls
`fetchWithTimeout(url, 10000)`.  `maxRetries` is an integer as in JS: when it
is non-positive the loop body never runs and the function falls off the end,
resolving with `undefined`. -/
def fetchWithRetry {α : Type _} (url : String) (_options : α)
    (maxRetries : Int) (transport : Nat → Outcome) : RunTrace :=
  if maxRetries ≤ 0 then ⟨[], [], .undefinedResult⟩
  else fetchWithRetryAux url transport maxRetries.toNat 0

/-! ## Status registry (order_tracker.js) -/

/-- One entry of `STATUS_CONFIG` / `DEFAULT_STATUS`: display metadata bound to
a status label. -/
structure StatusInfo where
  emoji : String
  message : String
  step : String
  description : String
  deriving Repr, DecidableEq

/-- The *own* entries of the fixed 8-entry `STATUS_CONFIG` object literal of
order_tracker.js: `some` entry for the eight canonical label keys, `none`
otherwise.  The JS bracket read `STATUS_CONFIG[status]` additionally consults
the prototype chain (an object literal inherits from `Object.prototype`);
that full read is `statusConfigLookup` below. -/
def STATUS_CONFIG (status : String) : Option StatusInfo :=
  if status = "Order Received" then
    some ⟨"👋", "We got your order!", "received",
      "Your order has been received and logged into our system."⟩
  else if status = "In Queue" then
    some ⟨"📋", "Spot reserved in print queue", "queue",
      "Your order is in the production queue."⟩
  else if status = "Printing" then
    some ⟨"🖨️", "Your print is being created", "printing",
      "Your item is currently being 3D printed."⟩
  else if status = "Post-Processing" then
    some ⟨"🔧", "Cleaning and finishing", "processing",
      "Removing supports and cleaning up your print."⟩
  else if status = "Quality Control" then
    some ⟨"🔍", "Final inspection", "quality",
      "Ensuring your print meets our quality standards."⟩
  else if status = "Packaging" then
    some ⟨"📦", "Carefully boxing your order", "packaging",
      "Safely packaging your order for shipment."⟩
  else if status = "Shipped" then
    some ⟨"✈️", "On its way to you!", "shipped",
      "Your order has been handed to the carrier."⟩
  else if status = "Delivered" then
    some ⟨"🎉", "Enjoy your print!", "delivered",
      "Your order has been delivered. Thanks for your order!"⟩
  else none

/-- `DEFAULT_STATUS` of order_tracker.js — the descriptor used for unknown
status labels. -/
def DEFAULT_STATUS : StatusInfo :=
  ⟨"🐱", "Processing your order", "received", "Your order is being processed."⟩

/-- The eight canonical status labels, in the declaration order of the
`STATUS_CONFIG` keys (which is also the production-stage order). -/
def canonicalLabels : List String :=
  ["Order Received", "In Queue", "Printing", "Post-Processing",
   "Quality Control", "Packaging", "Shipped", "Delivered"]

/-- `getStatusConfig(status)` — `STATUS_CONFIG[status] || DEFAULT_STATUS`
(every table entry is a truthy object, so `||` means: default exactly when the
lookup is `undefined`). -/
def getStatusConfig (status : String) : StatusInfo :=
  (STATUS_CONFIG status).getD DEFAULT_STATUS

/-- `getStatusSteps()` — all status step names in order. -/
def getStatusSteps : List String :=
  ["received", "queue", "printing", "processing", "quality", "packaging",
   "shipped", "delivered"]

/-- `getStatusIndex(step)` — `getStatusSteps().indexOf(step)`: the index of
`step` in the timeline, `-1` when absent (JS `Array.prototype.indexOf`). -/
def getStatusIndex (step : String) : Int :=
  match getStatusSteps.findIdx? (fun s => s == step) with
  | some i => (i : Int)
  | none => -1

/-- The property names an object literal inherits from `Object.prototype`: a
bracket read of any of these keys on `STATUS_CONFIG` yields the inherited
member (a function, or `Object.prototype` itself for the `__proto__`
accessor) — a truthy value — rather than `undefined`. -/
def OBJECT_PROTOTYPE_KEYS : List String :=
  ["constructor", "hasOwnProperty", "isPrototypeOf", "propertyIsEnumerable",
   "toLocaleString", "toString", "valueOf", "__proto__", "__defineGetter__",
   "__defineSetter__", "__lookupGetter__", "__lookupSetter__"]

/-- A defined (non-`undefined`) result of the bracket read
`STATUS_CONFIG[status]` or of `getStatusConfig`: either one of the table's
`StatusInfo` records (an own entry, or `DEFAULT_STATUS` after the `||`
fallback), or a value inherited from `Object.prototype` — which has none of
the `step` / `emoji` / `message` / `description` properties. -/
inductive StatusConfigResult where
  | info (sc : StatusInfo)
  | protoValue (key : String)
  deriving Repr, DecidableEq

/-- Reading `.step` off a `getStatusConfig` result: `undefined` (`none`) on a
value inherited from `Object.prototype`. -/
def StatusConfigResult.stepProp : StatusConfigResult → Option String
  | .info sc => some sc.step
  | .protoValue _ => none

/-- Reading `.emoji` off a `getStatusConfig` result. -/
def StatusConfigResult.emojiProp : StatusConfigResult → Option String
  | .info sc => some sc.emoji
  | .protoValue _ => none

/-- The full JS bracket read `STATUS_CONFIG[status]`: an own table entry for
the eight canonical labels, the inherited member for `Object.prototype`
property names, and `undefined` (`none`) for everything else. -/
def statusConfigLookup (status : String) : Option StatusConfigResult :=
  match STATUS_CONFIG status with
  | some info => some (.info info)
  | none =>
    if OBJECT_PROTOTYPE_KEYS.contains status then some (.protoValue status)
    else none

/-- `getStatusConfig(status)` under full JS property-lookup semantics:
`STATUS_CONFIG[status] || DEFAULT_STATUS`.  Every defined lookup result
(table record or inherited prototype member) is truthy, so the `||` falls
back to `DEFAULT_STATUS` exactly when the bracket read is `undefined`. -/
def getStatusConfigJs (status : String) : StatusConfigResult :=
  (statusConfigLookup status).getD (.info DEFAULT_STATUS)

/-- `getStatusIndex(step)` when the argument may be `undefined` (reading
`.step` off an inherited prototype member): `indexOf(undefined)` on the
all-string steps array is `-1`. -/
def getStatusIndexJs (step : Option String) : Int :=
  match step with
  | some st => getStatusIndex st
  | none => -1

/-! ## Tracking view state (order_tracker.js DOM writes)

The tracker page (track section of index.html, see docs/order_tracker_setup)
contains the status panel elements the module writes to: the mascot/animation
slot `#status-emoji`, `.status-title`, `.status-message`, the detail fields,
the eight `.timeline-step` elements and the `.status-timeline` container.
`TrackerDom` is that view state; the module's `if (element)` presence guards
are always taken. -/

/-- The per-stage CSS classes `updateTimeline` manages on a
`.timeline-step`. -/
structure StageMark where
  completed : Bool
  active : Bool
  deriving Repr, DecidableEq

/-- What the `#status-emoji` slot shows: a plain emoji glyph (`textContent`)
or an embedded `lottie-player` element with the given `src`. -/
inductive AnimationDisplay where
  | glyph (symbol : String)
  | lottiePlayer (url : String)
  deriving Repr, DecidableEq

/-- What `.status-message` contains: plain text (`textContent`) or the error
markup `displayError` assigns via `innerHTML` — a
`span.error-message` whose text is `❌ ` followed by the (already
HTML-escaped) message payload. -/
inductive MessageDisplay where
  | text (s : String)
  | errorSpan (escaped : String)
  deriving Repr, DecidableEq

/-- The tracker view state (the DOM nodes the order-tracker module writes). -/
structure TrackerDom where
  statusEmoji : AnimationDisplay
  statusTitle : String
  statusMessage : MessageDisplay
  orderProduct : String
  orderDate : String
  trackingNumber : String
  trackingHidden : Bool
  orderDetailsHidden : Bool
  orderStatusHidden : Bool
  timeline : List StageMark
  timelineDisplay : String
  formError : Option String
  deriving Repr, DecidableEq

/-- Ambient configuration and environment functions the tracker reads:
`animationMode` and `lottieUrls` from `AdditiveArtisanConfig.orderTracker`
(`animationMode = ""` models the property being absent), and the two
utils.js helpers whose results depend on browser APIs — `isValidURL`
(`new URL` parsing) and `formatDate` (`Date.toLocaleDateString`) — modelled
as environment-supplied pure functions. -/
structure TrackerConfig where
  animationMode : String
  lottieUrls : String → Option String
  isValidUrl : String → Bool
  formatDate : String → String

/-- JS truthiness of an optional string property: `undefined` and `""` are
falsy. -/
def strTruthy : Option String → Bool
  | none => false
  | some s => !s.isEmpty

/-- JS `v || dflt` for an optional string `v`: the fallback is used when `v`
is `undefined` or empty. -/
def jsOrString (v : Option String) (dflt : String) : String :=
  match v with
  | some s => if s.isEmpty then dflt else s
  | none => dflt

/-- `renderAnimation(step, statusConfig)` — what ends up in `#status-emoji`:
in "lottie" mode with a (truthy) configured URL for this step, an embedded
`lottie-player` when the URL passes `isValidURL`, else the emoji fallback;
in the default "emoji" mode, the emoji character. -/
def renderAnimation (cfg : TrackerConfig) (step : String) (sc : StatusInfo) :
    AnimationDisplay :=
  let mode := if cfg.animationMode.isEmpty then "emoji" else cfg.animationMode
  if mode = "lottie" && strTruthy (cfg.lottieUrls step) then
    let lottieUrl := (cfg.lottieUrls step).getD ""
    if !(cfg.isValidUrl lottieUrl) then .glyph sc.emoji
    else .lottiePlayer lottieUrl
  else .glyph sc.emoji

/-- `updateTimeline`'s `steps.forEach((stepElement, index) => …)` body:
`idx` is the index of the first element of the remaining list.  Every step
first has both classes removed, then gains `completed` when its index is below
`currentIndex` and `active` when it equals it. -/
def updateTimelineAux (currentIndex : Int) : Nat → List StageMark → List StageMark
  | _, [] => []
  | idx, _ :: rest =>
    ⟨decide ((idx : Int) < currentIndex), decide ((idx : Int) = currentIndex)⟩ ::
      updateTimelineAux currentIndex (idx + 1) rest

/-- `updateTimeline(currentStep)` over the list of `.timeline-step`
elements. -/
def updateTimeline (currentStep : String) (steps : List StageMark) :
    List StageMark :=
  updateTimelineAux (getStatusIndex currentStep) 0 steps

/-- `updateTimeline(currentStep)` when `currentStep` may be `undefined`
(`statusConfig.step` of an inherited prototype member): the current index is
then `indexOf(undefined) = -1` and no stage is marked. -/
def updateTimelineJs (currentStep : Option String) (steps : List StageMark) :
    List StageMark :=
  updateTimelineAux (getStatusIndexJs currentStep) 0 steps

/-- `updateOrderDetails(order)` — populate product / date / tracking fields
when the order carries (truthy) data, toggle the tracking container, and
unhide the details container. -/
def updateOrderDetails (cfg : TrackerConfig) (order : Order) (dom : TrackerDom) :
    TrackerDom :=
  { dom with
    orderProduct :=
      if strTruthy order.product then order.product.getD "" else dom.orderProduct,
    orderDate :=
      if strTruthy order.createdDate then cfg.formatDate (order.createdDate.getD "")
      else dom.orderDate,
    trackingNumber :=
      if strTruthy order.trackingNumber then order.trackingNumber.getD ""
      else dom.trackingNumber,
    trackingHidden := !(strTruthy order.trackingNumber),
    orderDetailsHidden := false }

/-- `displayOrderStatus(orderData)` for `order = orderData.order`: resolve the
status descriptor, render the animation, set title and message, populate the
details, recompute the timeline marks, and unhide the status container.
(An absent `orderData.order` instead throws a `TypeError` at `order.status`;
that path is handled at the `handleOrderSearch` call site.) -/
def displayOrderStatus (cfg : TrackerConfig) (order : Order) (dom : TrackerDom) :
    TrackerDom :=
  let sc := getStatusConfig order.status
  { updateOrderDetails cfg order dom with
    statusEmoji := renderAnimation cfg sc.step sc,
    statusTitle := order.status,
    statusMessage := .text sc.message,
    timeline := updateTimeline sc.step dom.timeline,
    orderStatusHidden := false }

/-- `escapeHTML` from utils.js: `div.textContent = str; return div.innerHTML`.
Serializing a text node escapes `&`, `<` and `>` (quotes stay as they are);
`(!str)` gives `""` for the empty string, which the fold also yields. -/
def escapeCharHTML (c : Char) : String :=
  if c = '&' then "&amp;"
  else if c = '<' then "&lt;"
  else if c = '>' then "&gt;"
  else String.singleton c

/-- `escapeHTML(str)` over the whole string. -/
def escapeHTML (s : String) : String :=
  s.toList.foldl (fun acc c => acc ++ escapeCharHTML c) ""

/-- `displayError(message)` — put
`<span class="error-message">❌ ${escapeHTML(message)}</span>` into
`.status-message`, unhide the status container, and hide the timeline
(`display: none`). -/
def displayError (message : String) (dom : TrackerDom) : TrackerDom :=
  { dom with
    statusMessage := .errorSpan (escapeHTML message),
    orderStatusHidden := false,
    timelineDisplay := "none" }

/-- `showLoading()` — loading text, neutral mascot glyph, status container
shown, all timeline marks cleared, timeline shown (`display: flex`). -/
def showLoading (dom : TrackerDom) : TrackerDom :=
  { dom with
    statusMessage := .text "Looking up your order...",
    statusEmoji := .glyph "🐱",
    orderStatusHidden := false,
    timeline := dom.timeline.map (fun _ => ⟨false, false⟩),
    timelineDisplay := "flex" }

/-! ## Order lookup client (order_tracker.js `fetchOrderStatus`) -/

/-- Characters `encodeURIComponent` leaves as they are:
`A–Z a–z 0–9 - _ . ! ~ * ' ( )`.  (`Char.ofNat 39` is the apostrophe.) -/
def isUnreservedURI (c : Char) : Bool :=
  c.isAlphanum || c = '-' || c = '_' || c = '.' || c = '!' || c = '~' ||
    c = '*' || c = Char.ofNat 39 || c = '(' || c = ')'

/-- Upper-case hexadecimal digit for `n < 16`. -/
def hexDigitChar (n : Nat) : Char :=
  if n < 10 then Char.ofNat (48 + n) else Char.ofNat (55 + n)

/-- Percent-encoding of one character as its UTF-8 bytes. -/
def percentEncodeChar (c : Char) : String :=
  ((String.singleton c).toUTF8.toList).foldl
    (fun acc b =>
      acc ++ "%" ++ String.singleton (hexDigitChar (b.toNat / 16)) ++
        String.singleton (hexDigitChar (b.toNat % 16))) ""

/-- `encodeURIComponent`. -/
def encodeURIComponent (s : String) : String :=
  s.toList.foldl
    (fun acc c =>
      acc ++ (if isUnreservedURI c then String.singleton c else percentEncodeChar c)) ""

/-- The lookup URL `fetchOrderStatus` builds:
`` `${API_ENDPOINT}?orderId=${encodeURIComponent(orderId)}` `` plus
`&email=…` when `email` is truthy. -/
def buildLookupUrl (endpoint orderId email : String) : String :=
  endpoint ++ "?orderId=" ++ encodeURIComponent orderId ++
    (if email.isEmpty then "" else "&email=" ++ encodeURIComponent email)

/-- How the `fetchOrderStatus` promise settles: resolve with the parsed
envelope `data`, or reject with an `Error` carrying `msg`. -/
inductive LookupOutcome where
  | found (data : Envelope)
  | failed (msg : String)
  deriving Repr, DecidableEq

/-- A `fetchOrderStatus` run: the requests issued by the underlying
`fetchWithRetry`, and how the promise settled. -/
structure LookupRun where
  requests : List Request
  outcome : LookupOutcome
  deriving Repr, DecidableEq

/-- The engine `TypeError` text for calling `.json()` on `undefined`; only
reachable if `fetchWithRetry` were called with a non-positive `maxRetries`,
which `fetchOrderStatus` (using the default 3) never does. -/
def jsUndefinedJsonError : String :=
  "Cannot read properties of undefined (reading 'json')"

/-- `fetchOrderStatus(orderId, email = "")` from order_tracker.js, with the
module-level `API_ENDPOINT` (`AdditiveArtisanConfig.orderTracker.apiEndpoint
|| ""`) passed explicitly: build the URL, run
`AdditiveArtisanAPI.fetchWithRetry(url)` (the api.js module is loaded;
`options` and `maxRetries` take their defaults `{}` and 3), parse the JSON
body, and throw `data.error || "Failed to fetch order status"` when the
response is not ok or the envelope has `success: false`.  The `try/catch`
rethrows, so errors (including the rejection of exhausted retries and JSON
parse errors) propagate unchanged. -/
def fetchOrderStatus (endpoint orderId email : String)
    (transport : Nat → Outcome) : LookupRun :=
  let url := buildLookupUrl endpoint orderId email
  let run := fetchWithRetry url Unit.unit 3 transport
  match run.result with
  | .rejectedWith e => ⟨run.requests, .failed e.message⟩
  | .undefinedResult => ⟨run.requests, .failed jsUndefinedJsonError⟩
  | .resolvedWith resp =>
    match resp.body with
    | none => ⟨run.requests, .failed resp.jsonErrorMsg⟩
    | some data =>
      if !resp.ok || !data.success then
        ⟨run.requests, .failed (jsOrString data.error "Failed to fetch order status")⟩
      else ⟨run.requests, .found data⟩

/-! ## Form validation and orchestration (main.js `handleOrderSearch`) -/

/-- `'A' ≤ c ≤ 'Z'` — the regex class `[A-Z]`. -/
def isUpperAZ (c : Char) : Bool := 'A' ≤ c && c ≤ 'Z'

/-- `'0' ≤ c ≤ '9'` — the regex class `\d` (no Unicode flag, so exactly
ASCII digits). -/
def isDigit09 (c : Char) : Bool := '0' ≤ c && c ≤ '9'

/-- Anchored match of `/^[A-Z]{2}-\d{4}-\d{4}$/` on a character list: exactly
two upper-case letters, a hyphen, four digits, a hyphen, four digits. -/
def orderIdChars : List Char → Bool
  | [a₁, a₂, h₁, b₁, b₂, b₃, b₄, h₂, d₁, d₂, d₃, d₄] =>
    isUpperAZ a₁ && isUpperAZ a₂ && h₁ == '-' &&
    isDigit09 b₁ && isDigit09 b₂ && isDigit09 b₃ && isDigit09 b₄ && h₂ == '-' &&
    isDigit09 d₁ && isDigit09 d₂ && isDigit09 d₃ && isDigit09 d₄
  | _ => false

/-- `orderIdPattern.test(orderId)` for
`orderIdPattern = /^[A-Z]{2}-\d{4}-\d{4}$/` (without the `m` flag, `^`/`$`
anchor at the very start/end of the string). -/
def orderIdPattern (s : String) : Bool := orderIdChars s.toList

/-- The regex class `[a-zA-Z0-9._%+-]` of the email local part. -/
def isLocalChar (c : Char) : Bool :=
  c.isAlphanum || c = '.' || c = '_' || c = '%' || c = '+' || c = '-'

/-- The regex class `[a-zA-Z0-9.-]` of the email domain part. -/
def isDomainChar (c : Char) : Bool := c.isAlphanum || c = '.' || c = '-'

/-- The regex class `[a-zA-Z]`. -/
def isAlphaChar (c : Char) : Bool :=
  ('a' ≤ c && c ≤ 'z') || ('A' ≤ c && c ≤ 'Z')

/-- Anchored match of the email regex
`/^[a-zA-Z0-9._%+-]+@[a-zA-Z0-9.-]+\.[a-zA-Z]{2,}$/`.  None of the classes
contains `@`, so a match has exactly one `@`; the `[a-zA-Z]{2,}$` tail
contains no dot, so the `\.` is the last dot after the `@`.  Hence: exactly
two `@`-separated parts, a non-empty all-`[a-zA-Z0-9._%+-]` local part, an
all-`[a-zA-Z0-9.-]` domain containing a dot with a non-empty part before its
last dot and an alphabetic part of length ≥ 2 after it. -/
def emailPattern (s : String) : Bool :=
  match s.splitOn "@" with
  | [localPart, domain] =>
    let dparts := domain.splitOn "."
    !localPart.isEmpty && localPart.toList.all isLocalChar &&
    domain.toList.all isDomainChar &&
    decide (2 ≤ dparts.length) &&
    (!(dparts.headD "").isEmpty || decide (3 ≤ dparts.length)) &&
    decide (2 ≤ (dparts.getLastD "").length) &&
    (dparts.getLastD "").toList.all isAlphaChar
  | _ => false

/-- The WhiteSpace ∪ LineTerminator set stripped by JS
`String.prototype.trim`: TAB LF VT FF CR SP NBSP OGHAM, the EN QUAD‥HAIR
SPACE range, LS PS NNBSP MMSP IDEOGRAPHIC SPACE and BOM. -/
def isJsWhitespace (c : Char) : Bool :=
  c.toNat = 9 || c.toNat = 10 || c.toNat = 11 || c.toNat = 12 ||
  c.toNat = 13 || c.toNat = 32 || c.toNat = 0xa0 || c.toNat = 0x1680 ||
  (0x2000 ≤ c.toNat && c.toNat ≤ 0x200a) ||
  c.toNat = 0x2028 || c.toNat = 0x2029 || c.toNat = 0x202f ||
  c.toNat = 0x205f || c.toNat = 0x3000 || c.toNat = 0xfeff

/-- JS `String.prototype.trim`: strip leading and trailing whitespace. -/
def jsTrim (s : String) : String :=
  ⟨((s.data.dropWhile isJsWhitespace).reverse.dropWhile isJsWhitespace).reverse⟩

/-- The engine `TypeError` text for reading `.status` of `undefined`
(`success: true` envelope without an `order` object). -/
def jsUndefinedStatusError : String :=
  "Cannot read properties of undefined (reading 'status')"

/-- `handleOrderSearch(e)` from main.js, as a function of the two input field
values, whether the email field group is visible, the configured endpoint,
the tracker configuration, the transport oracle and the current view state.
Returns the final view state and the network requests issued.

Steps, in source order: clear form errors; trim both fields; reject an empty
order id, then a format mismatch, then (if the email field is visible) an
empty email, then (if an email is given) an email-regex mismatch — each via
`showFormError`, returning before any network activity.  (The tracker module
is loaded, so the `window.AdditiveArtisanTracker` guard passes.)  Otherwise
`showLoading`, then `fetchOrderStatus`; on resolve `displayOrderStatus`
(where an absent `order` object throws a `TypeError` caught by the same
`catch`); on any thrown error
`displayError(error.message || "Unable to find order. Please check your order
number and email address.")`. -/
def handleOrderSearch (orderIdRaw emailRaw : String) (emailFieldVisible : Bool)
    (endpoint : String) (cfg : TrackerConfig) (transport : Nat → Outcome)
    (dom : TrackerDom) : TrackerDom × List Request :=
  let dom := { dom with formError := none }
  let orderId := jsTrim orderIdRaw
  let email := jsTrim emailRaw
  if orderId.isEmpty then
    ({ dom with formError := some "Please enter an order number." }, [])
  else if !(orderIdPattern orderId) then
    ({ dom with formError := some "Invalid order ID format. Expected: AA-2024-0047" }, [])
  else if emailFieldVisible && email.isEmpty then
    ({ dom with formError := some "Please enter your email address." }, [])
  else if !email.isEmpty && !(emailPattern email) then
    ({ dom with formError := some "Please enter a valid email address." }, [])
  else
    let dom := showLoading dom
    let run := fetchOrderStatus endpoint orderId email transport
    match run.outcome with
    | .found data =>
      match data.order with
      | some order => (displayOrderStatus cfg order dom, run.requests)
      | none =>
        (displayError
          (jsOrString (some jsUndefinedStatusError)
            "Unable to find order. Please check your order number and email address.")
          dom, run.requests)
    | .failed msg =>
      (displayError
        (jsOrString (some msg)
          "Unable to find order. Please check your order number and email address.")
        dom, run.requests)

/-- The spec's reading of the identifier format (spec §4.3 step 2 / §6): two
upper-case letters, hyphen, four digits, hyphen, four digits. -/
def specOrderIdFormat (s : String) : Prop :=
  ∃ u d₁ d₂ : List Char,
    s.toList = u ++ '-' :: d₁ ++ '-' :: d₂ ∧
    u.length = 2 ∧ (∀ c ∈ u, isUpperAZ c = true) ∧
    d₁.length = 4 ∧ (∀ c ∈ d₁, isDigit09 c = true) ∧
    d₂.length = 4 ∧ (∀ c ∈ d₂, isDigit09 c = true)

/-- A concrete tracker configuration for witnesses: default emoji mode, no
Lottie URLs. -/
def sampleCfg : TrackerConfig := ⟨"", fun _ => none, fun _ => false, fun s => s⟩

/-- A concrete initial view state for witnesses: hidden panels, an 8-step
timeline with no marks. -/
def sampleDom : TrackerDom :=
  ⟨.glyph "🐱", "", .text "", "", "", "", true, true, true,
   List.replicate 8 ⟨false, false⟩, "flex", none⟩

/-! ## Helper lemmas about the retry loop -/

/-- A successful (ok) attempt returns its response at once. -/
theorem fetchWithRetryAux_success_step (url : String) (transport : Nat → Outcome)
    (r i : Nat) (resp : Response) (hr : transport i = .resolved resp)
    (hok : resp.ok = true) :
    fetchWithRetryAux url transport (r + 1) i =
      ⟨[⟨url, 10000⟩], [], .resolvedWith resp⟩ := by
  simp [fetchWithRetryAux, hr, hok]

/-- A failed attempt either throws (last iteration) or backs off `2^i` seconds
and continues. -/
theorem fetchWithRetryAux_fail_step (url : String) (transport : Nat → Outcome)
    (r i : Nat) (hf : attemptFails (transport i) = true) :
    fetchWithRetryAux url transport (r + 1) i =
      if r = 0 then ⟨[⟨url, 10000⟩], [], .rejectedWith (failureOf (transport i))⟩
      else
        let t := fetchWithRetryAux url transport r (i + 1)
        ⟨⟨url, 10000⟩ :: t.requests, 2 ^ i * 1000 :: t.waits, t.result⟩ := by
  cases h : transport i with
  | resolved resp =>
    have hok : resp.ok = false := by simpa [attemptFails, h] using hf
    simp [fetchWithRetryAux, h, hok]
  | timeout => simp [fetchWithRetryAux, h]
  | netError msg => simp [fetchWithRetryAux, h]

/-- Peeling one backoff amount off the exponential wait schedule. -/
theorem range_pow_waits (i k : Nat) :
    (List.range (k + 1)).map (fun j => 2 ^ (i + j) * 1000) =
      2 ^ i * 1000 :: (List.range k).map (fun j => 2 ^ (i + 1 + j) * 1000) := by
  rw [List.range_succ_eq_map, List.map_cons, List.map_map]
  refine congrArg₂ _ (by simp) (List.map_congr_left ?_)
  intro a _
  show 2 ^ (i + (a + 1)) * 1000 = 2 ^ (i + 1 + a) * 1000
  congr 2
  omega

/-- If the first `k` attempts starting at iteration `i` fail and attempt
`i + k` resolves with an ok response, the loop returns that response having
issued `k + 1` requests, with waits `2^i, 2^(i+1), …, 2^(i+k-1)` seconds. -/
theorem fetchWithRetryAux_resolves (url : String) (transport : Nat → Outcome) :
    ∀ (k rem i : Nat) (resp : Response), k < rem →
      (∀ j, j < k → attemptFails (transport (i + j)) = true) →
      transport (i + k) = .resolved resp → resp.ok = true →
      fetchWithRetryAux url transport rem i =
        ⟨List.replicate (k + 1) ⟨url, 10000⟩,
         (List.range k).map (fun j => 2 ^ (i + j) * 1000),
         .resolvedWith resp⟩ := by
  intro k
  induction k with
  | zero =>
    intro rem i resp hlt hfail hres hok
    obtain ⟨r, rfl⟩ : ∃ r, rem = r + 1 := ⟨rem - 1, by omega⟩
    rw [fetchWithRetryAux_success_step url transport r i resp (by simpa using hres) hok]
    simp
  | succ k ih =>
    intro rem i resp hlt hfail hres hok
    obtain ⟨r, rfl⟩ : ∃ r, rem = r + 1 := ⟨rem - 1, by omega⟩
    have hf0 : attemptFails (transport i) = true := by
      simpa using hfail 0 (Nat.succ_pos k)
    rw [fetchWithRetryAux_fail_step url transport r i hf0, if_neg (by omega : ¬ r = 0)]
    have ht := ih r (i + 1) resp (by omega)
      (fun j hj => by
        have hx := hfail (j + 1) (by omega)
        simpa [show i + (j + 1) = i + 1 + j by omega] using hx)
      (by simpa [show i + (k + 1) = i + 1 + k by omega] using hres) hok
    simp only [ht, List.replicate_succ]
    exact congrArg₂ (fun a b => RunTrace.mk a b (.resolvedWith resp)) rfl
      (range_pow_waits i k).symm

/-- If all `r + 1` attempts starting at iteration `i` fail, the loop issues
exactly `r + 1` requests and rejects with the failure of the last attempt. -/
theorem fetchWithRetryAux_allFail (url : String) (transport : Nat → Outcome) :
    ∀ (r i : Nat), (∀ j, j ≤ r → attemptFails (transport (i + j)) = true) →
      (fetchWithRetryAux url transport (r + 1) i).requests.length = r + 1 ∧
      (fetchWithRetryAux url transport (r + 1) i).result =
        .rejectedWith (failureOf (transport (i + r))) := by
  intro r
  induction r with
  | zero =>
    intro i hfail
    rw [fetchWithRetryAux_fail_step url transport 0 i
      (by simpa using hfail 0 (Nat.le_refl 0))]
    simp
  | succ r ih =>
    intro i hfail
    rw [fetchWithRetryAux_fail_step url transport (r + 1) i
      (by simpa using hfail 0 (by omega)), if_neg (by omega : ¬ r + 1 = 0)]
    obtain ⟨h1, h2⟩ := ih (i + 1) (fun j hj => by
      have hx := hfail (j + 1) (by omega)
      simpa [show i + (j + 1) = i + 1 + j by omega] using hx)
    refine ⟨by simpa using h1, ?_⟩
    simpa [show i + 1 + r = i + (r + 1) by omega] using h2

/-- Every request the retry loop issues is `fetchWithTimeout(url, 10000)`. -/
theorem fetchWithRetryAux_requests_fixed (url : String) (transport : Nat → Outcome) :
    ∀ (rem i : Nat),
      ((fetchWithRetryAux url transport rem i).requests).all
        (fun q => q == ⟨url, 10000⟩) = true := by
  intro rem
  induction rem with
  | zero => intro i; simp [fetchWithRetryAux]
  | succ r ih =>
    intro i
    cases h : transport i with
    | resolved resp =>
      cases hok : resp.ok with
      | true =>
        rw [fetchWithRetryAux_success_step url transport r i resp h hok]
        simp
      | false =>
        have hf : attemptFails (transport i) = true := by simp [attemptFails, h, hok]
        rw [fetchWithRetryAux_fail_step url transport r i hf]
        by_cases hr : r = 0
        · simp [hr]
        · rw [if_neg hr]
          simpa using ih (i + 1)
    | timeout =>
      have hf : attemptFails (transport i) = true := by simp [attemptFails, h]
      rw [fetchWithRetryAux_fail_step url transport r i hf]
      by_cases hr : r = 0
      · simp [hr]
      · rw [if_neg hr]
        simpa using ih (i + 1)
    | netError msg =>
      have hf : attemptFails (transport i) = true := by simp [attemptFails, h]
      rw [fetchWithRetryAux_fail_step url transport r i hf]
      by_cases hr : r = 0
      · simp [hr]
      · rw [if_neg hr]
        simpa using ih (i + 1)

/-! ## Helper lemmas about the timeline renderer -/

/-- `updateTimeline` preserves the number of stages. -/
theorem updateTimelineAux_length (ci : Int) :
    ∀ (l : List StageMark) (idx : Nat),
      (updateTimelineAux ci idx l).length = l.length := by
  intro l
  induction l with
  | nil => intro idx; rfl
  | cons m rest ih => intro idx; simp [updateTimelineAux, ih]

/-- The mark `updateTimeline` gives the step at position `j` (when the loop
starts at DOM index `idx`). -/
theorem updateTimelineAux_get? (ci : Int) :
    ∀ (l : List StageMark) (idx j : Nat),
      (updateTimelineAux ci idx l).get? j =
        if j < l.length then
          some ⟨decide (((idx + j : Nat) : Int) < ci),
                decide (((idx + j : Nat) : Int) = ci)⟩
        else none := by
  intro l
  induction l with
  | nil => intro idx j; simp [updateTimelineAux]
  | cons m rest ih =>
    intro idx j
    cases j with
    | zero => simp [updateTimelineAux]
    | succ j =>
      have hidx : idx + (j + 1) = (idx + 1) + j := by omega
      simp only [updateTimelineAux, List.get?_cons_succ, ih (idx + 1) j,
        List.length_cons, Nat.add_lt_add_iff_right, hidx]

/-- Re-running `updateTimeline`'s loop over its own output changes nothing
(every class is removed and recomputed from the index alone). -/
theorem updateTimelineAux_idem (ci : Int) :
    ∀ (l : List StageMark) (idx : Nat),
      updateTimelineAux ci idx (updateTimelineAux ci idx l) =
        updateTimelineAux ci idx l := by
  intro l
  induction l with
  | nil => intro idx; rfl
  | cons m rest ih => intro idx; simp [updateTimelineAux, ih]

/-- After `updateTimeline`, no stage carries both `completed` and `active`. -/
theorem updateTimelineAux_single_mark (ci : Int) :
    ∀ (l : List StageMark) (idx : Nat),
      ((updateTimelineAux ci idx l).all
        (fun m => !(m.completed && m.active))) = true := by
  intro l
  induction l with
  | nil => intro idx; rfl
  | cons m rest ih =>
    intro idx
    simp only [updateTimelineAux, List.all_cons, ih, Bool.and_true]
    by_cases h : (idx : Int) = ci
    · simp [h]
    · simp [h]

/-- Stages whose index is beyond `currentIndex` get neither class. -/
theorem updateTimelineAux_none (ci : Int) :
    ∀ (l : List StageMark) (idx : Nat), ci < (idx : Int) →
      updateTimelineAux ci idx l = List.replicate l.length ⟨false, false⟩ := by
  intro l
  induction l with
  | nil => intro idx h; rfl
  | cons m rest ih =>
    intro idx h
    have h1 : ¬ ((idx : Int) < ci) := by omega
    have h2 : ¬ ((idx : Int) = ci) := by omega
    have h3 : ci < ((idx + 1 : Nat) : Int) := by push_cast; omega
    simp [updateTimelineAux, List.replicate_succ, ih (idx + 1) h3, h1, h2]

/-! ## Helper lemmas about strings and fallbacks -/

/-- A string whose first summand is non-empty is non-empty. -/
theorem isEmpty_append_left_false (s t : String) (h : s.data = [] → False) :
    (s ++ t).isEmpty = false := by
  by_contra hc
  rw [Bool.not_eq_false] at hc
  have hst := (String.isEmpty_iff _).mp hc
  apply h
  have hd := congrArg String.data hst
  rw [String.data_append] at hd
  exact (List.append_eq_nil.mp hd).1

/-- The message of an HTTP failure is never the empty string. -/
theorem httpMsg_isEmpty_false (x y : String) :
    ("HTTP " ++ x ++ ": " ++ y).isEmpty = false := by
  apply isEmpty_append_left_false
  intro hx
  rw [String.data_append, String.data_append] at hx
  exact absurd (List.append_eq_nil.mp (List.append_eq_nil.mp hx).1).1 (by decide)

/-- Re-applying the `error.message || generic` fallback to the result of a
`data.error || dflt` fallback with a non-empty default changes nothing. -/
theorem jsOrString_collapse (v : Option String) (d g : String)
    (hd : d.isEmpty = false) :
    jsOrString (some (jsOrString v d)) g = jsOrString v d := by
  cases v with
  | none => simp [jsOrString, hd]
  | some s =>
    by_cases hs : s.isEmpty = true
    · simp [jsOrString, hs, hd]
    · simp [jsOrString, hs]

/-! ## Helper lemmas about the identifier pattern -/

/-- A list of length 4 is a literal four-element list. -/
theorem exists_eq_four {α : Type _} (l : List α) (h : l.length = 4) :
    ∃ a b c d, l = [a, b, c, d] := by
  cases l with
  | nil => simp at h
  | cons a t =>
    cases t with
    | nil => simp at h
    | cons b t =>
      cases t with
      | nil => simp at h
      | cons c t =>
        cases t with
        | nil => simp at h
        | cons d t =>
          cases t with
          | nil => exact ⟨a, b, c, d, rfl⟩
          | cons e t => simp at h

/-- The character-list matcher recognises exactly the regex language of
`^[A-Z]{2}-\d{4}-\d{4}$`: two upper-case letters, a hyphen, four digits, a
hyphen, four digits. -/
theorem orderIdChars_iff (cs : List Char) :
    orderIdChars cs = true ↔
      ∃ u d₁ d₂ : List Char,
        cs = u ++ '-' :: d₁ ++ '-' :: d₂ ∧
        u.length = 2 ∧ (∀ c ∈ u, isUpperAZ c = true) ∧
        d₁.length = 4 ∧ (∀ c ∈ d₁, isDigit09 c = true) ∧
        d₂.length = 4 ∧ (∀ c ∈ d₂, isDigit09 c = true) := by
  constructor
  · intro h
    unfold orderIdChars at h
    split at h
    case h_1 a₁ a₂ h₁ b₁ b₂ b₃ b₄ h₂ d₁ d₂ d₃ d₄ =>
      simp only [Bool.and_eq_true, beq_iff_eq] at h
      obtain ⟨⟨⟨⟨⟨⟨⟨⟨⟨⟨⟨hA1, hA2⟩, hH1⟩, hB1⟩, hB2⟩, hB3⟩, hB4⟩, hH2⟩,
        hD1⟩, hD2⟩, hD3⟩, hD4⟩ := h
      subst hH1
      subst hH2
      refine ⟨[a₁, a₂], [b₁, b₂, b₃, b₄], [d₁, d₂, d₃, d₄], rfl, rfl, ?_,
        rfl, ?_, rfl, ?_⟩
      · intro c hc
        simp only [List.mem_cons, List.mem_singleton, List.not_mem_nil,
          or_false] at hc
        rcases hc with rfl | rfl
        exacts [hA1, hA2]
      · intro c hc
        simp only [List.mem_cons, List.mem_singleton, List.not_mem_nil,
          or_false] at hc
        rcases hc with rfl | rfl | rfl | rfl
        exacts [hB1, hB2, hB3, hB4]
      · intro c hc
        simp only [List.mem_cons, List.mem_singleton, List.not_mem_nil,
          or_false] at hc
        rcases hc with rfl | rfl | rfl | rfl
        exacts [hD1, hD2, hD3, hD4]
    case h_2 =>
      exact absurd h (by simp)
  · rintro ⟨u, d₁, d₂, hcs, hu2, hup, h14, hd1, h24, hd2⟩
    obtain ⟨a₁, a₂, rfl⟩ := List.length_eq_two.mp hu2
    obtain ⟨b₁, b₂, b₃, b₄, rfl⟩ := exists_eq_four _ h14
    obtain ⟨e₁, e₂, e₃, e₄, rfl⟩ := exists_eq_four _ h24
    subst hcs
    simp [orderIdChars,
      hup a₁ (by simp), hup a₂ (by simp),
      hd1 b₁ (by simp), hd1 b₂ (by simp), hd1 b₃ (by simp), hd1 b₄ (by simp),
      hd2 e₁ (by simp), hd2 e₂ (by simp), hd2 e₃ (by simp), hd2 e₄ (by simp)]

/-- A string matching the identifier pattern is non-empty. -/
theorem orderIdPattern_isEmpty_false (s : String)
    (h : orderIdPattern s = true) : s.isEmpty = false := by
  by_contra hc
  rw [Bool.not_eq_false] at hc
  rw [(String.isEmpty_iff _).mp hc] at h
  exact absurd h (by decide)

/-! ## Helper lemmas wrapping `fetchWithRetry` runs -/

/-- A first attempt resolving ok makes the default 3-attempt run return at
once. -/
theorem fetchWithRetry_first_ok {α : Type} (url : String) (o : α)
    (transport : Nat → Outcome) (resp : Response)
    (h0 : transport 0 = .resolved resp) (hok : resp.ok = true) :
    fetchWithRetry url o 3 transport = ⟨[⟨url, 10000⟩], [], .resolvedWith resp⟩ := by
  rw [fetchWithRetry, if_neg (by norm_num)]
  have h := fetchWithRetryAux_resolves url transport 0 (Int.toNat 3) 0 resp
    (by norm_num) (fun j hj => absurd hj (Nat.not_lt_zero j))
    (by simpa using h0) hok
  simpa using h

/-- An ok response at attempt `k < 3`, after `k` failing attempts, makes the
default 3-attempt run resolve with that response. -/
theorem fetchWithRetry_ok_at {α : Type} (url : String) (o : α)
    (transport : Nat → Outcome) (k : Nat) (resp : Response) (hk : k < 3)
    (hfail : ∀ j, j < k → attemptFails (transport j) = true)
    (hres : transport k = .resolved resp) (hok : resp.ok = true) :
    (fetchWithRetry url o 3 transport).result = .resolvedWith resp := by
  rw [fetchWithRetry, if_neg (by norm_num)]
  rw [fetchWithRetryAux_resolves url transport k (Int.toNat 3) 0 resp
    (by simpa using hk) (fun j hj => by simpa using hfail j hj)
    (by simpa using hres) hok]

/-- Three failing attempts make the default 3-attempt run issue 3 requests
and reject with the failure of attempt 2. -/
theorem fetchWithRetry_all_fail3 {α : Type} (url : String) (o : α)
    (transport : Nat → Outcome)
    (hf : ∀ j, j < 3 → attemptFails (transport j) = true) :
    (fetchWithRetry url o 3 transport).result =
      .rejectedWith (failureOf (transport 2)) ∧
    (fetchWithRetry url o 3 transport).requests.length = 3 := by
  rw [fetchWithRetry, if_neg (by norm_num)]
  have h := fetchWithRetryAux_allFail url transport 2 0
    (fun j hj => by simpa using hf j (by omega))
  exact ⟨by simpa using h.2, by simpa using h.1⟩

/-- Every request of any `fetchWithRetry` run hits the bare URL with the
fixed 10000 ms timeout. -/
theorem fetchWithRetry_requests_all_fixed {α : Type} (url : String) (o : α)
    (maxRetries : Int) (transport : Nat → Outcome) :
    ((fetchWithRetry url o maxRetries transport).requests).all
      (fun q => q == ⟨url, 10000⟩) = true := by
  rw [fetchWithRetry]
  by_cases h : maxRetries ≤ 0
  · rw [if_pos h]
    rfl
  · rw [if_neg h]
    exact fetchWithRetryAux_requests_fixed url transport maxRetries.toNat 0

/-! ## Claim theorems about the Retry/Timeout Fetcher -/

/-- Claim C1: for every URL and transport outcome sequence, if the first `k`
attempts fail (`k < maxRetries`) and attempt `k+1` yields a 2xx (ok) response,
`fetchWithRetry` resolves with that response after exactly `k+1` attempts,
waiting `2^i` seconds (here in ms: `2^i * 1000`) between attempt `i` and
attempt `i+1`; and if all `maxRetries` attempts fail it makes exactly
`maxRetries` attempts and rejects with the last failure (the timeout error if
the last attempt timed out, otherwise the underlying transport/HTTP error). -/
theorem fetchWithRetry_backoff_and_last_failure {α : Type} (url : String)
    (options : α) (transport : Nat → Outcome) (m : Nat) :
    (∀ (k : Nat) (resp : Response), k < m →
      (∀ j, j < k → attemptFails (transport j) = true) →
      transport k = .resolved resp → resp.ok = true →
      fetchWithRetry url options (m : Int) transport =
        ⟨List.replicate (k + 1) ⟨url, 10000⟩,
         (List.range k).map (fun j => 2 ^ j * 1000),
         .resolvedWith resp⟩) ∧
    (0 < m → (∀ j, j < m → attemptFails (transport j) = true) →
      (fetchWithRetry url options (m : Int) transport).requests.length = m ∧
      (fetchWithRetry url options (m : Int) transport).result =
        .rejectedWith (failureOf (transport (m - 1)))) := by
  constructor
  · intro k resp hk hfail hres hok
    have hm : ¬ ((m : Int) ≤ 0) := by omega
    rw [fetchWithRetry, if_neg hm, Int.toNat_natCast]
    have hrun := fetchWithRetryAux_resolves url transport k m 0 resp
      (by omega) (fun j hj => by simpa using hfail j hj) (by simpa using hres) hok
    simpa using hrun
  · intro hm hfail
    have hm' : ¬ ((m : Int) ≤ 0) := by omega
    rw [fetchWithRetry, if_neg hm', Int.toNat_natCast]
    obtain ⟨r, hr⟩ : ∃ r, m = r + 1 := ⟨m - 1, by omega⟩
    have hrun := fetchWithRetryAux_allFail url transport r 0
      (fun j hj => by simpa using hfail j (by omega))
    subst hr
    simpa using hrun

/-- Witness for C1: a transport that times out twice then returns an ok
response makes `fetchWithRetry` resolve with that response after 3 attempts
and backoff waits of 1000 ms and 2000 ms. -/
theorem fetchWithRetry_backoff_and_last_failure_witness :
    fetchWithRetry "https://api.example/orders" (0 : Nat) (3 : Int)
      (fun n => if n < 2 then Outcome.timeout
                else .resolved ⟨true, 200, "OK", none, ""⟩) =
      ⟨List.replicate 3 ⟨"https://api.example/orders", 10000⟩,
       (List.range 2).map (fun j => 2 ^ j * 1000),
       .resolvedWith ⟨true, 200, "OK", none, ""⟩⟩ :=
  (fetchWithRetry_backoff_and_last_failure "https://api.example/orders"
      (0 : Nat) _ 3).1 2 ⟨true, 200, "OK", none, ""⟩ (by decide)
    (fun j hj => by interval_cases j <;> decide) rfl rfl

/-- Claim C9: calling `fetchWithRetry` with `maxRetries ≤ 0` performs no
network attempt and resolves with `undefined` — it neither returns a
`Response` nor rejects with an error. -/
theorem fetchWithRetry_nonpositive_maxRetries_undefined {α : Type}
    (url : String) (options : α) (maxRetries : Int)
    (transport : Nat → Outcome) (h : maxRetries ≤ 0) :
    fetchWithRetry url options maxRetries transport = ⟨[], [], .undefinedResult⟩ := by
  rw [fetchWithRetry, if_pos h]

/-- Witness for C9 at `maxRetries = 0`. -/
theorem fetchWithRetry_nonpositive_maxRetries_undefined_witness :
    fetchWithRetry "https://api.example/orders" (0 : Nat) (0 : Int)
      (fun _ => Outcome.timeout) = ⟨[], [], .undefinedResult⟩ :=
  fetchWithRetry_nonpositive_maxRetries_undefined "https://api.example/orders"
    (0 : Nat) 0 (fun _ => Outcome.timeout) (by decide)

/-- Claim C10: the `options` parameter of `fetchWithRetry` is never forwarded
to the underlying request — any two option values (even of different types)
give identical runs, and every request issued is `fetchWithTimeout` of the
bare URL with the fixed 10000 ms timeout. -/
theorem fetchWithRetry_options_noninterference {α β : Type} (url : String)
    (o₁ : α) (o₂ : β) (maxRetries : Int) (transport : Nat → Outcome) :
    fetchWithRetry url o₁ maxRetries transport =
      fetchWithRetry url o₂ maxRetries transport ∧
    ((fetchWithRetry url o₁ maxRetries transport).requests).all
      (fun q => q == ⟨url, 10000⟩) = true := by
  refine ⟨rfl, ?_⟩
  rw [fetchWithRetry]
  by_cases h : maxRetries ≤ 0
  · rw [if_pos h]
    rfl
  · rw [if_neg h]
    exact fetchWithRetryAux_requests_fixed url transport maxRetries.toNat 0

/-! ## Claim theorems about the Status Registry and the Tracking View -/

/-- Claim C2 counterexample: the registry's default descriptor does *not*
carry an undefined/sentinel stage index.  For the unknown input
`"Unknown Status"` the lookup (under full JS property-read semantics) returns
`DEFAULT_STATUS`, whose step `"received"` has stage index 0 — so the timeline
renderer marks stage 0 as `active` instead of highlighting no stage. -/
theorem unknownStatus_marks_stage_zero_active :
    getStatusConfigJs "Unknown Status" = .info DEFAULT_STATUS ∧
    getStatusIndexJs (getStatusConfigJs "Unknown Status").stepProp = 0 ∧
    updateTimelineJs (getStatusConfigJs "Unknown Status").stepProp
        (List.replicate 8 ⟨false, false⟩) =
      ⟨false, true⟩ :: List.replicate 7 ⟨false, false⟩ := by decide

/-- Claim C2 (amended): the registry lookup is total (never throws) on every
input, but unknown labels do not get a sentinel stage index.  For every input
string that is not one of the eight canonical labels:
* if it is not the name of an `Object.prototype` member either, the lookup
  returns the designated default descriptor `DEFAULT_STATUS` — whose step
  `"received"` has stage index 0, so the timeline renderer marks stage 0 as
  active (and no stage completed) rather than highlighting nothing — and the
  animation renderer shows the neutral cat glyph `🐱`;
* if it names an `Object.prototype` member (`"constructor"`, `"toString"`,
  `"__proto__"`, …), the bracket read yields the truthy inherited value
  instead of `undefined`, so the `||` fallback does *not* apply: the result
  is not the default descriptor, its `step` property is `undefined`, the
  stage index is `-1`, and no timeline stage is marked. -/
theorem unknownStatus_default_descriptor (s : String) (m : StageMark)
    (ms : List StageMark) (h : STATUS_CONFIG s = none) :
    (OBJECT_PROTOTYPE_KEYS.contains s = false →
      getStatusConfigJs s = .info DEFAULT_STATUS ∧
      (getStatusConfigJs s).stepProp = some "received" ∧
      getStatusIndexJs (getStatusConfigJs s).stepProp = 0 ∧
      (getStatusConfigJs s).emojiProp = some "🐱" ∧
      updateTimelineJs (getStatusConfigJs s).stepProp (m :: ms) =
        ⟨false, true⟩ :: List.replicate ms.length ⟨false, false⟩) ∧
    (OBJECT_PROTOTYPE_KEYS.contains s = true →
      getStatusConfigJs s = .protoValue s ∧
      (getStatusConfigJs s).stepProp = none ∧
      getStatusIndexJs (getStatusConfigJs s).stepProp = -1 ∧
      updateTimelineJs (getStatusConfigJs s).stepProp (m :: ms) =
        List.replicate (ms.length + 1) ⟨false, false⟩) := by
  constructor
  · intro hc
    have hmem : s ∉ OBJECT_PROTOTYPE_KEYS := by simpa using hc
    have hjs : getStatusConfigJs s = .info DEFAULT_STATUS := by
      simp [getStatusConfigJs, statusConfigLookup, h, hmem]
    refine ⟨hjs, by rw [hjs]; rfl, by rw [hjs]; decide, by rw [hjs]; rfl, ?_⟩
    rw [hjs]
    show updateTimelineJs (some "received") (m :: ms) = _
    rw [updateTimelineJs,
      show getStatusIndexJs (some "received") = 0 from by decide,
      updateTimelineAux, updateTimelineAux_none 0 ms 1 (by decide)]
    rfl
  · intro hc
    have hmem : s ∈ OBJECT_PROTOTYPE_KEYS := by simpa using hc
    have hjs : getStatusConfigJs s = .protoValue s := by
      simp [getStatusConfigJs, statusConfigLookup, h, hmem]
    refine ⟨hjs, by rw [hjs]; rfl, by rw [hjs]; rfl, ?_⟩
    rw [hjs]
    show updateTimelineJs none (m :: ms) = _
    rw [updateTimelineJs,
      show getStatusIndexJs none = -1 from rfl,
      updateTimelineAux_none (-1) (m :: ms) 0 (by decide)]
    rfl

/-- Witness for C2 (amended) at the concrete inputs `"Unknown Status"`
(ordinary unknown label: default descriptor, stage 0 active) and
`"constructor"` (`Object.prototype` member: inherited value, no stage
marked), on an untouched 8-stage timeline. -/
theorem unknownStatus_default_descriptor_witness :
    (getStatusConfigJs "Unknown Status" = .info DEFAULT_STATUS ∧
      (getStatusConfigJs "Unknown Status").stepProp = some "received" ∧
      getStatusIndexJs (getStatusConfigJs "Unknown Status").stepProp = 0 ∧
      (getStatusConfigJs "Unknown Status").emojiProp = some "🐱" ∧
      updateTimelineJs (getStatusConfigJs "Unknown Status").stepProp
          (⟨false, false⟩ :: List.replicate 7 ⟨false, false⟩) =
        ⟨false, true⟩ :: List.replicate 7 ⟨false, false⟩) ∧
    (getStatusConfigJs "constructor" = .protoValue "constructor" ∧
      (getStatusConfigJs "constructor").stepProp = none ∧
      getStatusIndexJs (getStatusConfigJs "constructor").stepProp = -1 ∧
      updateTimelineJs (getStatusConfigJs "constructor").stepProp
          (⟨false, false⟩ :: List.replicate 7 ⟨false, false⟩) =
        List.replicate 8 ⟨false, false⟩) := by
  have h1 := (unknownStatus_default_descriptor "Unknown Status" ⟨false, false⟩
    (List.replicate 7 ⟨false, false⟩) (by decide)).1 (by decide)
  have h2 := (unknownStatus_default_descriptor "constructor" ⟨false, false⟩
    (List.replicate 7 ⟨false, false⟩) (by decide)).2 (by decide)
  exact ⟨by simpa using h1, by simpa using h2⟩

/-- Claim C5: for each of the eight canonical labels, the stage index derived
from the registry descriptor (the index of its `step` in `getStatusSteps()`)
equals the label's position 0‥7 in the canonical stage sequence.  (Stability
across calls is definitional: `getStatusConfig` and `getStatusIndex` are pure
functions of their argument.) -/
theorem canonical_labels_stage_indices :
    canonicalLabels.map (fun l => getStatusIndex (getStatusConfig l).step) =
      [0, 1, 2, 3, 4, 5, 6, 7] ∧
    canonicalLabels.length = 8 ∧ getStatusSteps.length = 8 := by decide

/-- Claim C3: displaying a `Found` order whose status is a known label with
stage index `k` marks every timeline stage with index `< k` as completed, the
stage at `k` as active, and leaves every later stage unmarked; in particular
a `"Printing"` order has `k = 2` and the status message
"Your print is being created". -/
theorem displayOrderStatus_timeline_marks (cfg : TrackerConfig) (order : Order)
    (dom : TrackerDom) (sc : StatusInfo) (k : Nat)
    (hknown : STATUS_CONFIG order.status = some sc)
    (hidx : getStatusIndex sc.step = (k : Int)) :
    (∀ j, j < dom.timeline.length →
      (displayOrderStatus cfg order dom).timeline.get? j =
        some ⟨decide (j < k), decide (j = k)⟩) ∧
    (order.status = "Printing" →
      k = 2 ∧ (displayOrderStatus cfg order dom).statusMessage =
        .text "Your print is being created") := by
  have hsc : getStatusConfig order.status = sc := by
    rw [getStatusConfig, hknown]
    rfl
  constructor
  · intro j hj
    have ht : (displayOrderStatus cfg order dom).timeline =
        updateTimelineAux (getStatusIndex sc.step) 0 dom.timeline := by
      simp [displayOrderStatus, hsc, updateTimeline]
    rw [ht, hidx, updateTimelineAux_get? ((k : Nat) : Int) dom.timeline 0 j,
      if_pos hj]
    have e1 : decide (((0 + j : Nat) : Int) < (k : Int)) = decide (j < k) :=
      decide_eq_decide.mpr (by omega)
    have e2 : decide (((0 + j : Nat) : Int) = (k : Int)) = decide (j = k) :=
      decide_eq_decide.mpr (by omega)
    rw [e1, e2]
  · intro hp
    rw [hp] at hknown
    have hsceq : sc = ⟨"🖨️", "Your print is being created", "printing",
        "Your item is currently being 3D printed."⟩ :=
      Option.some.inj ((by decide :
        STATUS_CONFIG "Printing" = some ⟨"🖨️", "Your print is being created",
          "printing", "Your item is currently being 3D printed."⟩).symm.trans
        hknown).symm
    have hk : (k : Int) = 2 := by
      rw [← hidx, hsceq]
      decide
    refine ⟨by exact_mod_cast hk, ?_⟩
    have hm : (displayOrderStatus cfg order dom).statusMessage =
        .text sc.message := by
      simp [displayOrderStatus, hsc]
    rw [hm, hsceq]

/-- Witness for C3: the end-to-end `"Printing"` example — stage 2 active,
stages 0–1 completed, stages 3–7 unmarked, message
"Your print is being created". -/
theorem displayOrderStatus_timeline_marks_witness :
    ((displayOrderStatus sampleCfg
        ⟨"AA-2024-0047", "Printing", some "Test Product", none, none, none⟩
        sampleDom).timeline.get? 2 = some ⟨false, true⟩) ∧
    ((displayOrderStatus sampleCfg
        ⟨"AA-2024-0047", "Printing", some "Test Product", none, none, none⟩
        sampleDom).timeline.get? 1 = some ⟨true, false⟩) ∧
    ((displayOrderStatus sampleCfg
        ⟨"AA-2024-0047", "Printing", some "Test Product", none, none, none⟩
        sampleDom).timeline.get? 5 = some ⟨false, false⟩) ∧
    (2 = 2 ∧ (displayOrderStatus sampleCfg
        ⟨"AA-2024-0047", "Printing", some "Test Product", none, none, none⟩
        sampleDom).statusMessage = .text "Your print is being created") := by
  have h := displayOrderStatus_timeline_marks sampleCfg
    ⟨"AA-2024-0047", "Printing", some "Test Product", none, none, none⟩
    sampleDom
    ⟨"🖨️", "Your print is being created", "printing",
      "Your item is currently being 3D printed."⟩ 2 (by decide) (by decide)
  refine ⟨?_, ?_, ?_, h.2 rfl⟩
  · simpa using h.1 2 (by decide)
  · simpa using h.1 1 (by decide)
  · simpa using h.1 5 (by decide)

/-- Claim C7: displaying the same `Found` result twice is idempotent — the
view state after the second `displayOrderStatus` equals the state after the
first — and no timeline stage ever carries both `completed` and `active`. -/
theorem displayOrderStatus_idempotent (cfg : TrackerConfig) (order : Order)
    (dom : TrackerDom) :
    displayOrderStatus cfg order (displayOrderStatus cfg order dom) =
      displayOrderStatus cfg order dom ∧
    ((displayOrderStatus cfg order dom).timeline.all
      (fun m => !(m.completed && m.active))) = true := by
  constructor
  · by_cases h1 : strTruthy order.product <;>
    by_cases h2 : strTruthy order.createdDate <;>
    by_cases h3 : strTruthy order.trackingNumber <;>
      simp [displayOrderStatus, updateOrderDetails, updateTimeline,
        updateTimelineAux_idem, h1, h2, h3]
  · have ht : (displayOrderStatus cfg order dom).timeline =
        updateTimelineAux
          (getStatusIndex (getStatusConfig order.status).step) 0 dom.timeline := by
      simp [displayOrderStatus, updateTimeline]
    rw [ht]
    exact updateTimelineAux_single_mark _ dom.timeline 0

/-- Claim C6: identifier validation accepts exactly the strings matching
`^[A-Z]{2}-\d{4}-\d{4}$` (two upper-case letters, hyphen, four digits,
hyphen, four digits): `"AA-2024-0047"` passes while `"aa-2024-0047"`,
`"AA-24-0047"` and `"AA-2024-047"` are rejected; a trimmed non-empty
mismatch makes `handleOrderSearch` show the bad-format error with no network
request, and a trimmed-empty identifier the missing-identifier error with no
network request. -/
theorem orderId_validation (s endpoint : String) (cfg : TrackerConfig)
    (transport : Nat → Outcome) (dom : TrackerDom) :
    (orderIdPattern s = true ↔ specOrderIdFormat s) ∧
    orderIdPattern "AA-2024-0047" = true ∧
    orderIdPattern "aa-2024-0047" = false ∧
    orderIdPattern "AA-24-0047" = false ∧
    orderIdPattern "AA-2024-047" = false ∧
    (orderIdPattern (jsTrim s) = false → (jsTrim s).isEmpty = false →
      handleOrderSearch s "" false endpoint cfg transport dom =
        ({ dom with
            formError := some "Invalid order ID format. Expected: AA-2024-0047" },
          [])) ∧
    ((jsTrim s).isEmpty = true →
      handleOrderSearch s "" false endpoint cfg transport dom =
        ({ dom with formError := some "Please enter an order number." }, [])) := by
  refine ⟨orderIdChars_iff s.toList, by decide, by decide, by decide, by decide,
    ?_, ?_⟩
  · intro hbad hne
    simp [handleOrderSearch, hbad, hne]
  · intro hempty
    simp [handleOrderSearch, hempty]

/-- Witness for C6: the three malformed sample identifiers produce the
bad-format error before any network request, and a whitespace-only
identifier the missing-identifier error. -/
theorem orderId_validation_witness :
    (handleOrderSearch "aa-2024-0047" "" false "" sampleCfg
        (fun _ => Outcome.timeout) sampleDom =
      ({ sampleDom with
          formError := some "Invalid order ID format. Expected: AA-2024-0047" },
        [])) ∧
    (handleOrderSearch "AA-24-0047" "" false "" sampleCfg
        (fun _ => Outcome.timeout) sampleDom =
      ({ sampleDom with
          formError := some "Invalid order ID format. Expected: AA-2024-0047" },
        [])) ∧
    (handleOrderSearch "AA-2024-047" "" false "" sampleCfg
        (fun _ => Outcome.timeout) sampleDom =
      ({ sampleDom with
          formError := some "Invalid order ID format. Expected: AA-2024-0047" },
        [])) ∧
    (handleOrderSearch "  " "" false "" sampleCfg
        (fun _ => Outcome.timeout) sampleDom =
      ({ sampleDom with formError := some "Please enter an order number." },
        [])) :=
  ⟨(orderId_validation "aa-2024-0047" "" sampleCfg (fun _ => Outcome.timeout)
      sampleDom).2.2.2.2.2.1 (by decide) (by decide),
   (orderId_validation "AA-24-0047" "" sampleCfg (fun _ => Outcome.timeout)
      sampleDom).2.2.2.2.2.1 (by decide) (by decide),
   (orderId_validation "AA-2024-047" "" sampleCfg (fun _ => Outcome.timeout)
      sampleDom).2.2.2.2.2.1 (by decide) (by decide),
   (orderId_validation "  " "" sampleCfg (fun _ => Outcome.timeout)
      sampleDom).2.2.2.2.2.2 (by decide)⟩

/-- Claim C4 counterexample: when the server answers every attempt with a
non-2xx response whose envelope *does* carry a server-supplied error string,
the displayed message is the HTTP error `"HTTP 404: Not Found"` — not that
server-supplied string, contradicting the claim at this input. -/
theorem nonOk_lookup_ignores_server_error :
    ((handleOrderSearch "AA-2024-0047" "" false "https://w.example/orders"
        sampleCfg
        (fun _ => .resolved ⟨false, 404, "Not Found",
          some ⟨false, some "Order not found or email doesn't match", none⟩, ""⟩)
        sampleDom).1.statusMessage =
      .errorSpan (escapeHTML "HTTP 404: Not Found")) ∧
    ((handleOrderSearch "AA-2024-0047" "" false "https://w.example/orders"
        sampleCfg
        (fun _ => .resolved ⟨false, 404, "Not Found",
          some ⟨false, some "Order not found or email doesn't match", none⟩, ""⟩)
        sampleDom).1.statusMessage ≠
      .errorSpan (escapeHTML "Order not found or email doesn't match")) := by
  decide

/-- Claim C4 (amended): a lookup whose envelope has `success: false` on a 2xx
response — at whichever attempt `k < 3` that 2xx response arrives, after `k`
failed attempts — fails carrying the server-supplied error string when
present (the generic "Failed to fetch order status" otherwise); a lookup
whose HTTP status is non-2xx on all attempts fails, once retries are
exhausted, with the HTTP error `"HTTP <status>: <statusText>"` (not the
envelope's error string).  In both cases the view controller ends in the
error state: `displayError` shows the message HTML-escaped inside the error
span, leaves the status panel visible, and hides the timeline. -/
theorem lookup_failure_error_display (orderIdRaw endpoint : String)
    (cfg : TrackerConfig) (transport : Nat → Outcome) (dom : TrackerDom)
    (hid : orderIdPattern (jsTrim orderIdRaw) = true) :
    (∀ (k : Nat) resp env, k < 3 →
      (∀ j, j < k → attemptFails (transport j) = true) →
      transport k = .resolved resp → resp.ok = true →
      resp.body = some env → env.success = false →
      (handleOrderSearch orderIdRaw "" false endpoint cfg transport dom).1 =
        displayError (jsOrString env.error "Failed to fetch order status")
          (showLoading { dom with formError := none })) ∧
    (∀ resp2, (∀ j, j < 3 → attemptFails (transport j) = true) →
      transport 2 = .resolved resp2 →
      (handleOrderSearch orderIdRaw "" false endpoint cfg transport dom).1 =
        displayError
          ("HTTP " ++ toString resp2.status ++ ": " ++ resp2.statusText)
          (showLoading { dom with formError := none })) ∧
    (∀ msg d, (displayError msg d).statusMessage = .errorSpan (escapeHTML msg) ∧
      (displayError msg d).timelineDisplay = "none" ∧
      (displayError msg d).orderStatusHidden = false) := by
  have hne : (jsTrim orderIdRaw).isEmpty = false :=
    orderIdPattern_isEmpty_false _ hid
  have htrim : jsTrim "" = "" := by decide
  have hemp : ("" : String).isEmpty = true := rfl
  refine ⟨?_, ?_, fun msg d => ⟨rfl, rfl, rfl⟩⟩
  · intro k resp env hk hfail hres hok hbody hsucc
    have hfetch := fetchWithRetry_ok_at
      (buildLookupUrl endpoint (jsTrim orderIdRaw) "") Unit.unit transport k
      resp hk hfail hres hok
    have hcollapse := jsOrString_collapse env.error "Failed to fetch order status"
      "Unable to find order. Please check your order number and email address."
      (by decide)
    simp [handleOrderSearch, hne, hid, htrim, hemp, fetchOrderStatus, hfetch,
      hbody, hok, hsucc, hcollapse]
  · intro resp2 hf h2
    have hall := fetchWithRetry_all_fail3
      (buildLookupUrl endpoint (jsTrim orderIdRaw) "") Unit.unit transport hf
    have hmsg : (failureOf (transport 2)).message =
        "HTTP " ++ toString resp2.status ++ ": " ++ resp2.statusText := by
      rw [h2]
      rfl
    have hmne : ("HTTP " ++ toString resp2.status ++ ": " ++
        resp2.statusText).isEmpty = false :=
      httpMsg_isEmpty_false (toString resp2.status) resp2.statusText
    simp [handleOrderSearch, hne, hid, htrim, hemp, fetchOrderStatus, hall.1,
      hmsg, jsOrString, hmne]

/-- Witness for C4 (amended): a transport that times out once and then
delivers a 2xx `success: false` envelope on attempt 1 displays exactly the
server-supplied error "Order not found or email doesn't match". -/
theorem lookup_failure_error_display_witness :
    (handleOrderSearch "AA-2024-0047" "" false "https://w.example/orders"
        sampleCfg
        (fun n => if n = 0 then Outcome.timeout
          else .resolved ⟨true, 200, "OK",
            some ⟨false, some "Order not found or email doesn't match", none⟩,
            ""⟩)
        sampleDom).1 =
      displayError "Order not found or email doesn't match"
        (showLoading { sampleDom with formError := none }) := by
  have h := (lookup_failure_error_display "AA-2024-0047"
      "https://w.example/orders" sampleCfg
      (fun n => if n = 0 then Outcome.timeout
        else .resolved ⟨true, 200, "OK",
          some ⟨false, some "Order not found or email doesn't match", none⟩,
          ""⟩)
      sampleDom (by decide)).1 1
    ⟨true, 200, "OK",
      some ⟨false, some "Order not found or email doesn't match", none⟩, ""⟩
    ⟨false, some "Order not found or email doesn't match", none⟩ (by decide)
    (fun j hj => by
      have hj0 : j = 0 := by omega
      subst hj0
      decide) rfl rfl rfl rfl
  have he : ("Order not found or email doesn't match" : String).isEmpty = false := by
    decide
  simpa [jsOrString, he] using h

/-- Claim C8 counterexample: with no endpoint configured
(`API_ENDPOINT = ""`), a lookup does *not* surface any configuration error
immediately and retries are performed: three requests go out to the relative
URL `"?orderId=AA-2024-0047"` and the failure that surfaces is the ordinary
timeout error. -/
theorem no_endpoint_retries_anyway :
    (fetchOrderStatus "" "AA-2024-0047" "" (fun _ => Outcome.timeout)).requests =
      List.replicate 3 ⟨"?orderId=AA-2024-0047", 10000⟩ ∧
    (fetchOrderStatus "" "AA-2024-0047" "" (fun _ => Outcome.timeout)).outcome =
      .failed "Request timeout - please try again" := by decide

/-- Claim C8 (amended): `fetchOrderStatus` performs no configuration check.
With no endpoint configured (`API_ENDPOINT = ""`) and a failing transport, a
lookup still issues the full 3-attempt retry schedule against the relative
URL built from the empty endpoint, and fails with the ordinary
transport/HTTP error of the last attempt — no configuration error is raised
and the feature is not disabled (the error is caught and displayed like any
other lookup failure, so the page does not crash). -/
theorem no_endpoint_no_config_check (orderId email : String)
    (transport : Nat → Outcome)
    (hf : ∀ j, j < 3 → attemptFails (transport j) = true) :
    (fetchOrderStatus "" orderId email transport).requests.length = 3 ∧
    ((fetchOrderStatus "" orderId email transport).requests).all
      (fun q => q == ⟨buildLookupUrl "" orderId email, 10000⟩) = true ∧
    (fetchOrderStatus "" orderId email transport).outcome =
      .failed (failureOf (transport 2)).message := by
  have hall := fetchWithRetry_all_fail3 (buildLookupUrl "" orderId email)
    Unit.unit transport hf
  have hq := fetchWithRetry_requests_all_fixed (buildLookupUrl "" orderId email)
    Unit.unit 3 transport
  refine ⟨?_, ?_, ?_⟩
  · simp only [fetchOrderStatus, hall.1]
    exact hall.2
  · simp only [fetchOrderStatus, hall.1]
    exact hq
  · simp only [fetchOrderStatus, hall.1]

/-- Witness for C8 (amended) on an always-timing-out transport. -/
theorem no_endpoint_no_config_check_witness :
    (fetchOrderStatus "" "AA-2024-0047" ""
        (fun _ => Outcome.timeout)).requests.length = 3 ∧
    ((fetchOrderStatus "" "AA-2024-0047" ""
        (fun _ => Outcome.timeout)).requests).all
      (fun q => q == ⟨buildLookupUrl "" "AA-2024-0047" "", 10000⟩) = true ∧
    (fetchOrderStatus "" "AA-2024-0047" "" (fun _ => Outcome.timeout)).outcome =
      .failed (failureOf ((fun _ : Nat => Outcome.timeout) 2)).message :=
  no_endpoint_no_config_check "AA-2024-0047" "" (fun _ => Outcome.timeout)
    (fun _ _ => rfl)

end StoreSite
